import Mathlib

/-!
Shallow embedding of the Composio tool handlers of this repository
(`src/tools/src/aden_tools/tools/composio_tools/gmail_tools.py` and
`src/tools/src/aden_tools/tools/composio_tools/linkedin_tools.py`).

Python dictionaries are embedded as association lists over a JSON-like
value type `Val`; Python exceptions are embedded as the `Except String`
monad, where `Except.error msg` models an exception carrying `str(e) = msg`
propagating out of the modelled code.  The external collaborators (the
credential store, the Composio SDK client, and the remote service) are
modelled by an oracle structure `World` whose fields give the outcome of
each external call a handler can make; `Except.error` outcomes model those
calls raising.
-/

namespace Hive

/-- JSON-like values, embedding the Python values that flow through the
handlers (None, bool, str, int, list, dict). -/
inductive Val where
  | null : Val
  | vbool : Bool → Val
  | vstr : String → Val
  | vint : Int → Val
  | varr : List Val → Val
  | vobj : List (String × Val) → Val

/-- A Python dict with string keys, in insertion order. -/
abbrev Dict := List (String × Val)

/-- Key lookup in a dict: `d.get(k)` returns `none` when the key is absent. -/
def dget : Dict → String → Option Val
  | [], _ => none
  | (k, v) :: rest, key => if k = key then some v else dget rest key

/-- Python truthiness of a value. -/
def Val.truthy : Val → Bool
  | .null => false
  | .vbool b => b
  | .vstr s => decide (s ≠ "")
  | .vint n => decide (n ≠ 0)
  | .varr xs => !xs.isEmpty
  | .vobj kvs => !kvs.isEmpty

/-- Truthiness of the result of a `dict.get` (absent key means `None`,
hence falsy). -/
def optTruthy : Option Val → Bool
  | none => false
  | some v => v.truthy

/-- The Python value denoted by an optional lookup result: an absent key
denotes `None`. -/
def optVal : Option Val → Val
  | none => .null
  | some v => v

/-- Python `v.get(k)` on a value expected to be a dict: raises
(AttributeError) when `v` is not a dict. -/
def Val.pyGet : Val → String → Except String (Option Val)
  | .vobj kvs, k => .ok (dget kvs k)
  | _, _ => .error "AttributeError: get"

/-- Python `v.get(k, dflt)`: the stored value when the key is present (even
if it is `None`), the default otherwise; raises when `v` is not a dict. -/
def Val.pyGetD : Val → String → Val → Except String Val
  | .vobj kvs, k, dflt => .ok ((dget kvs k).getD dflt)
  | _, _, _ => .error "AttributeError: get"

/-- Python `v[:n]` for the non-negative `n` the handlers use (every slice in
the source happens after a clamp to a lower bound of 1).  Slicing a list
truncates it; slicing a string yields its first characters as one-character
strings when subsequently iterated; any other value raises (TypeError). -/
def pySlice : Val → Int → Except String (List Val)
  | .varr xs, n => .ok (xs.take n.toNat)
  | .vstr s, n => .ok ((s.toList.take n.toNat).map (fun c => Val.vstr (String.mk [c])))
  | _, _ => .error "TypeError: slice"

/-- Python `len(v)`: defined on lists, strings and dicts, raises otherwise. -/
def pyLen : Val → Except String Nat
  | .varr xs => .ok xs.length
  | .vstr s => .ok s.length
  | .vobj kvs => .ok kvs.length
  | _ => .error "TypeError: len"

/-- Python `str(v)` as used by `linkedin_get_company` on the remote error
payload.  Strings go through unchanged; scalars print as in Python;
container reprs are not needed by any claim and are abstracted. -/
def pyStr : Val → String
  | .null => "None"
  | .vbool true => "True"
  | .vbool false => "False"
  | .vstr s => s
  | .vint n => toString n
  | .varr _ => "[...]"
  | .vobj _ => "   "

/-- Substring test, for Python `"403" in str(error_msg)`. -/
def strContains (s sub : String) : Bool := decide (1 < (s.splitOn sub).length)

/-- Python `f"...{x}"` of an optional string: `None` prints as "None". -/
def pyOptStr : Option String → String
  | none => "None"
  | some s => s

/-- A `try: ... except Exception as e: return handler(str(e))` wrapper
around a block that produces a dict. -/
def pyTry (body : Except String Dict) (handler : String → Dict) : Dict :=
  match body with
  | .ok d => d
  | .error e => handler e

/-- The object returned by `entity.get_connection(app=...)`: its Python
truthiness and its optional `status` attribute
(`getattr(connection, "status", None)`). -/
structure ConnectionObj where
  truthy : Bool
  status : Option String

/-- The object returned by `entity.initiate_connection(...)`: its optional
`redirectUrl` attribute. -/
structure InitiateResult where
  redirectUrl : Option String

/-- The injected credential store (`CredentialManager`): `get(name)` returns
an optional secret and may raise. -/
structure CredentialManager where
  get : String → Except String (Option String)

/-- Oracle for one tool invocation: the behaviour of every external call the
handlers can make.  `Except.error` outcomes model the call raising. -/
structure World where
  /-- Whether `from composio import ComposioToolSet` succeeds. -/
  sdkInstalled : Bool
  /-- The optional injected `CredentialManager`. -/
  credentials : Option CredentialManager
  /-- `os.getenv("COMPOSIO_API_KEY")`. -/
  envApiKey : Option String
  /-- `ComposioToolSet(api_key=...)`: constructing the client may raise. -/
  mkClient : String → Except String Unit
  /-- `client.get_entity(id="default")`. -/
  getEntity : Except String Unit
  /-- `entity.get_connection(app=app_name)`. -/
  getConnection : String → Except String ConnectionObj
  /-- `entity.initiate_connection(app_name=..., redirect_url=...)`. -/
  initiateConnection : String → Except String InitiateResult
  /-- `client.execute_action(action=..., params=...)`, by action name. -/
  executeAction : String → Dict → Except String Dict

/-- A copy of `w` whose remote-facing operations are replaced; used to state
that a handler outcome involves no remote interaction. -/
def World.withRemote (w : World) (mk : String → Except String Unit)
    (ge : Except String Unit) (gc : String → Except String ConnectionObj)
    (ic : String → Except String InitiateResult)
    (ea : String → Dict → Except String Dict) : World :=
  { w with mkClient := mk, getEntity := ge, getConnection := gc,
           initiateConnection := ic, executeAction := ea }

/-- A copy of `w` with only the action-invocation step replaced; used to
state that a handler outcome involves no action invocation. -/
def World.withExec (w : World)
    (ea : String → Dict → Except String Dict) : World :=
  { w with executeAction := ea }

/-- `GMAIL_APP_NAME` from `gmail_tools.py`. -/
def GMAIL_APP_NAME : String := "GMAIL"

/-- `LINKEDIN_APP_NAME` from `linkedin_tools.py`. -/
def LINKEDIN_APP_NAME : String := "LINKEDIN"

/-- The key-resolution step of `_get_composio_client` (identical in
`gmail_tools.py` lines 21-36 and `linkedin_tools.py` lines 21-36): the
injected credential store when present, else the environment variable. -/
def resolveApiKey (w : World) : Except String (Option String) :=
  match w.credentials with
  | some c => c.get "composio"
  | none => .ok w.envApiKey

/-- `_get_composio_client`, continued: branch on the resolved key. -/
def get_composio_client (w : World) : Except String (Option Unit × Option String) :=
  if !w.sdkInstalled then
    .ok (none, some "Composio SDK not installed. Run: pip install composio-core")
  else
    match resolveApiKey w with
    | .error e => .error e
    | .ok api_key =>
      match api_key with
      | none => .ok (none, some "COMPOSIO_API_KEY not set. Get one at https://app.composio.dev/settings")
      | some s =>
        if s = "" then
          .ok (none, some "COMPOSIO_API_KEY not set. Get one at https://app.composio.dev/settings")
        else
          match w.mkClient s with
          | .error e => .error e
          | .ok _ => .ok (some (), none)

/-- The body of the second inner `try` of `_check_oauth_connection` (lines
74-88 of both tool files): initiate a new OAuth flow; a truthy
`redirectUrl` is returned, otherwise — also when initiation raises — the
dashboard URL for the lower-cased app name. -/
def initiateOutcome (w : World) (app_name : String) : Bool × Option String × Option String :=
  match w.initiateConnection app_name with
  | .error _ => (false, some ("https://app.composio.dev/app/" ++ app_name.toLower), none)
  | .ok connection_request =>
    match connection_request.redirectUrl with
    | some oauth_url =>
      if oauth_url = "" then
        (false, some ("https://app.composio.dev/app/" ++ app_name.toLower), none)
      else
        (false, some oauth_url, none)
    | none => (false, some ("https://app.composio.dev/app/" ++ app_name.toLower), none)

/-- `_check_oauth_connection` (lines 39-91 of both tool files).  Returns
`(is_connected, oauth_url, error_message)`.  The connection is treated as
active when the record is truthy and its status is "ACTIVE" or absent; a
raise while fetching the record is swallowed and falls through to
initiation; a raise while fetching the entity becomes the check-failure
message. -/
def check_oauth_connection (w : World) (app_name : String) : Bool × Option String × Option String :=
  match w.getEntity with
  | .error e => (false, none, some ("Failed to check OAuth connection: " ++ e))
  | .ok _ =>
    if (match w.getConnection app_name with
        | .error _ => false
        | .ok connection =>
          connection.truthy &&
            decide (connection.status = some "ACTIVE" ∨ connection.status = none)) then
      (true, none, none)
    else initiateOutcome w app_name

/-- `_ensure_oauth_connection` (lines 94-128 of both tool files): resolve
the client, then the connection status; produce the gate's error envelope
or the connected client. -/
def ensure_oauth_connection (w : World) (app_name : String) :
    Except String (Option Unit × Option Dict) :=
  match get_composio_client w with
  | .error e => .error e
  | .ok (client, error) =>
    match error with
    | some err => .ok (none, some [("error", .vstr err)])
    | none =>
      match check_oauth_connection w app_name with
      | (_, _, some ce) => .ok (none, some [("error", .vstr ce)])
      | (is_connected, oauth_url, none) =>
        if !is_connected then
          .ok (none, some [
            ("error", .vstr (app_name ++ " OAuth connection required. Please authorize access.")),
            ("oauth_required", .vbool true),
            ("oauth_url", optVal ((oauth_url).map Val.vstr)),
            ("message", .vstr ("Please visit the following URL to connect your "
              ++ app_name ++ " account: " ++ pyOptStr oauth_url))])
        else
          .ok (client, none)

/-- The step every gate-consulting handler shares (e.g. lines 169-173 and
201-202 of `gmail_tools.py`): unpack `_ensure_oauth_connection`, return its
error envelope if any, otherwise run the `try` body under the handler's
`except` wrapper.  An `Except.error` of the gate itself models the
un-caught propagation of a raise out of `_ensure_oauth_connection`. -/
def gateStep (gate : Except String (Option Unit × Option Dict))
    (body : Except String Dict) (wrap : String → Dict) : Except String Dict :=
  match gate with
  | .error e => .error e
  | .ok (_, some error_response) => .ok error_response
  | .ok (_, none) => .ok (pyTry body wrap)

/-- The reshaped view of one message produced by the list comprehension of
`gmail_read_emails` (lines 248-260 of `gmail_tools.py`).  Every `msg.get`
succeeds exactly when `msg` is a dict; otherwise the first `.get` raises. -/
def emailView (msg : Val) : Except String Val :=
  match msg with
  | .vobj kvs => .ok (.vobj [
      ("id", optVal (dget kvs "id")),
      ("thread_id", optVal (dget kvs "threadId")),
      ("from", optVal (dget kvs "from")),
      ("to", optVal (dget kvs "to")),
      ("subject", optVal (dget kvs "subject")),
      ("snippet", optVal (dget kvs "snippet")),
      ("date", optVal (dget kvs "date")),
      ("is_unread", (dget kvs "isUnread").getD (.vbool false))])
  | _ => .error "AttributeError: get"

/-- The reshaped view of one message produced by the list comprehension of
`gmail_search_emails` (lines 311-322 of `gmail_tools.py`). -/
def searchView (msg : Val) : Except String Val :=
  match msg with
  | .vobj kvs => .ok (.vobj [
      ("id", optVal (dget kvs "id")),
      ("thread_id", optVal (dget kvs "threadId")),
      ("from", optVal (dget kvs "from")),
      ("to", optVal (dget kvs "to")),
      ("subject", optVal (dget kvs "subject")),
      ("snippet", optVal (dget kvs "snippet")),
      ("date", optVal (dget kvs "date"))])
  | _ => .error "AttributeError: get"

/-- The reshaped view of one person produced by the list comprehension of
`linkedin_search_people` (lines 320-327 of `linkedin_tools.py`). -/
def personView (p : Val) : Except String Val :=
  match p with
  | .vobj kvs => .ok (.vobj [
      ("name", optVal (dget kvs "name")),
      ("headline", optVal (dget kvs "headline")),
      ("profile_url", optVal (dget kvs "profileUrl"))])
  | _ => .error "AttributeError: get"

/-- The `try` body of `gmail_send_email` (lines 173-199 of
`gmail_tools.py`): build the params, invoke the action, reshape. -/
def gmail_send_email_body (w : World) (to_ subject body cc bcc : String) :
    Except String Dict :=
  let params : Dict :=
    [("to", .vstr to_), ("subject", .vstr subject), ("body", .vstr body)]
    ++ (if cc = "" then [] else [("cc", .vstr cc)])
    ++ (if bcc = "" then [] else [("bcc", .vstr bcc)])
  match w.executeAction "GMAIL_SEND_EMAIL" params with
  | .error e => .error e
  | .ok result =>
    if optTruthy (dget result "successful") then
      match ((dget result "data").getD (.vobj [])).pyGet "id" with
      | .error e => .error e
      | .ok message_id =>
        match ((dget result "data").getD (.vobj [])).pyGet "threadId" with
        | .error e => .error e
        | .ok thread_id =>
          .ok [("success", .vbool true),
               ("message_id", optVal message_id),
               ("thread_id", optVal thread_id),
               ("message", .vstr "Email sent successfully")]
    else
      .ok [("error", (dget result "error").getD (.vstr "Failed to send email"))]

/-- `gmail_send_email` (lines 137-202 of `gmail_tools.py`): validate,
gate, then try the action body with the "Gmail send failed" wrapper. -/
def gmail_send_email (w : World) (to_ subject body cc bcc : String) :
    Except String Dict :=
  if to_ = "" then .ok [("error", .vstr "Recipient email address is required")]
  else if subject = "" then .ok [("error", .vstr "Email subject is required")]
  else if body = "" then .ok [("error", .vstr "Email body is required")]
  else
    gateStep (ensure_oauth_connection w GMAIL_APP_NAME)
      (gmail_send_email_body w to_ subject body cc bcc)
      (fun e => [("error", .vstr ("Gmail send failed: " ++ e))])

/-- The `try` body of `gmail_read_emails` (lines 229-264 of
`gmail_tools.py`), for the already-clamped `max_results`. -/
def gmail_read_emails_body (w : World) (max_results : Int) (label : String)
    (unread_only : Bool) : Except String Dict :=
  let params : Dict :=
    [("max_results", .vint max_results), ("label_ids", .varr [.vstr label])]
    ++ (if unread_only then [("query", .vstr "is:unread")] else [])
  match w.executeAction "GMAIL_FETCH_EMAILS" params with
  | .error e => .error e
  | .ok result =>
    if optTruthy (dget result "successful") then
      match ((dget result "data").getD (.vobj [])).pyGetD "messages" (.varr []) with
      | .error e => .error e
      | .ok messages =>
        match pySlice messages max_results with
        | .error e => .error e
        | .ok sliced =>
          match sliced.mapM emailView with
          | .error e => .error e
          | .ok emails =>
            match pyLen messages with
            | .error e => .error e
            | .ok total =>
              .ok [("success", .vbool true),
                   ("emails", .varr emails),
                   ("total", .vint (Int.ofNat total))]
    else
      .ok [("error", (dget result "error").getD (.vstr "Failed to fetch emails"))]

/-- `gmail_read_emails` after its first statement clamped `max_results`
(lines 225-267 of `gmail_tools.py`). -/
def gmail_read_emails_clamped (w : World) (max_results : Int) (label : String)
    (unread_only : Bool) : Except String Dict :=
  gateStep (ensure_oauth_connection w GMAIL_APP_NAME)
    (gmail_read_emails_body w max_results label unread_only)
    (fun e => [("error", .vstr ("Gmail read failed: " ++ e))])

/-- `gmail_read_emails` (lines 204-267 of `gmail_tools.py`): clamp
`max_results` to [1, 100], then gate and invoke. -/
def gmail_read_emails (w : World) (max_results : Int) (label : String)
    (unread_only : Bool) : Except String Dict :=
  gmail_read_emails_clamped w (max 1 (min 100 max_results)) label unread_only

/-- The `try` body of `gmail_search_emails` (lines 296-327 of
`gmail_tools.py`), for the already-clamped `max_results`. -/
def gmail_search_emails_body (w : World) (query : String) (max_results : Int) :
    Except String Dict :=
  match w.executeAction "GMAIL_FETCH_EMAILS"
      [("query", .vstr query), ("max_results", .vint max_results)] with
  | .error e => .error e
  | .ok result =>
    if optTruthy (dget result "successful") then
      match ((dget result "data").getD (.vobj [])).pyGetD "messages" (.varr []) with
      | .error e => .error e
      | .ok messages =>
        match pySlice messages max_results with
        | .error e => .error e
        | .ok sliced =>
          match sliced.mapM searchView with
          | .error e => .error e
          | .ok results =>
            match pyLen messages with
            | .error e => .error e
            | .ok total =>
              .ok [("success", .vbool true),
                   ("results", .varr results),
                   ("total", .vint (Int.ofNat total)),
                   ("query", .vstr query)]
    else
      .ok [("error", (dget result "error").getD (.vstr "Failed to search emails"))]

/-- `gmail_search_emails` after validation and clamping (lines 290-330 of
`gmail_tools.py`). -/
def gmail_search_emails_clamped (w : World) (query : String) (max_results : Int) :
    Except String Dict :=
  gateStep (ensure_oauth_connection w GMAIL_APP_NAME)
    (gmail_search_emails_body w query max_results)
    (fun e => [("error", .vstr ("Gmail search failed: " ++ e))])

/-- `gmail_search_emails` (lines 269-330 of `gmail_tools.py`): require a
query, clamp `max_results`, then gate and invoke. -/
def gmail_search_emails (w : World) (query : String) (max_results : Int) :
    Except String Dict :=
  if query = "" then .ok [("error", .vstr "Search query is required")]
  else gmail_search_emails_clamped w query (max 1 (min 100 max_results))

/-- The `try` body of `gmail_create_draft` (lines 365-393 of
`gmail_tools.py`); the params use `body or ""`. -/
def gmail_create_draft_body (w : World) (to_ subject body cc bcc : String) :
    Except String Dict :=
  let params : Dict :=
    [("to", .vstr to_), ("subject", .vstr subject),
     ("body", .vstr (if body = "" then "" else body))]
    ++ (if cc = "" then [] else [("cc", .vstr cc)])
    ++ (if bcc = "" then [] else [("bcc", .vstr bcc)])
  match w.executeAction "GMAIL_CREATE_EMAIL_DRAFT" params with
  | .error e => .error e
  | .ok result =>
    if optTruthy (dget result "successful") then
      match ((dget result "data").getD (.vobj [])).pyGet "id" with
      | .error e => .error e
      | .ok draft_id =>
        .ok [("success", .vbool true),
             ("draft_id", optVal draft_id),
             ("message", .vstr "Draft created successfully")]
    else
      .ok [("error", (dget result "error").getD (.vstr "Failed to create draft"))]

/-- `gmail_create_draft` (lines 332-393 of `gmail_tools.py`): validate `to`
and `subject` only, then gate and invoke. -/
def gmail_create_draft (w : World) (to_ subject body cc bcc : String) :
    Except String Dict :=
  if to_ = "" then .ok [("error", .vstr "Recipient email address is required")]
  else if subject = "" then .ok [("error", .vstr "Email subject is required")]
  else
    gateStep (ensure_oauth_connection w GMAIL_APP_NAME)
      (gmail_create_draft_body w to_ subject body cc bcc)
      (fun e => [("error", .vstr ("Gmail draft creation failed: " ++ e))])

/-- The `try` body of `linkedin_create_post` (lines 164-185 of
`linkedin_tools.py`). -/
def linkedin_create_post_body (w : World) (text visibility : String) :
    Except String Dict :=
  match w.executeAction "LINKEDIN_CREATE_LINKED_IN_POST"
      [("text", .vstr text), ("visibility", .vstr visibility)] with
  | .error e => .error e
  | .ok result =>
    if optTruthy (dget result "successful") then
      match ((dget result "data").getD (.vobj [])).pyGet "id" with
      | .error e => .error e
      | .ok post_id =>
        .ok [("success", .vbool true),
             ("post_id", optVal post_id),
             ("message", .vstr "Post created successfully")]
    else
      .ok [("error", (dget result "error").getD (.vstr "Failed to create post"))]

/-- `linkedin_create_post` after its length validation (lines 157-185 of
`linkedin_tools.py`): coerce an unknown visibility to "PUBLIC", gate,
invoke. -/
def linkedin_create_post_checked (w : World) (text visibility : String) :
    Except String Dict :=
  let visibility :=
    if visibility ∈ ["PUBLIC", "CONNECTIONS", "LOGGED_IN"] then visibility
    else "PUBLIC"
  gateStep (ensure_oauth_connection w LINKEDIN_APP_NAME)
    (linkedin_create_post_body w text visibility)
    (fun e => [("error", .vstr ("LinkedIn post failed: " ++ e))])

/-- `linkedin_create_post` (lines 137-185 of `linkedin_tools.py`): require
`text` of length 1-3000 before anything else. -/
def linkedin_create_post (w : World) (text visibility : String) :
    Except String Dict :=
  if text = "" ∨ text.length > 3000 then
    .ok [("error", .vstr "Post text must be 1-3000 characters")]
  else linkedin_create_post_checked w text visibility

/-- `linkedin_get_profile` (lines 187-214 of `linkedin_tools.py`): a fixed
sample profile, with no external interaction at all. -/
def linkedin_get_profile (_w : World) (_profile_id : String) :
    Except String Dict :=
  .ok [("success", .vbool true),
       ("profile", .vobj [
         ("id", .vstr "mock-profile-123"),
         ("first_name", .vstr "Richard"),
         ("last_name", .vstr "Tang"),
         ("full_name", .vstr "Richard Tang"),
         ("headline", .vstr "CEO & Founder at Aden | Building AI-powered solutions"),
         ("summary", .vstr "Experienced tech entrepreneur focused on AI and automation. Previously founded multiple startups in the B2B space."),
         ("profile_url", .vstr "https://www.linkedin.com/in/richardtang"),
         ("location", .vstr "San Francisco, CA"),
         ("current_company", .vstr "Aden")])]

/-- The `try` body of `linkedin_get_company` (lines 239-277 of
`linkedin_tools.py`), with its shape-normalisation of the data payload and
its permission-error annotation. -/
def linkedin_get_company_body (w : World) (role : String) :
    Except String Dict :=
  match w.executeAction "LINKEDIN_GET_COMPANY_INFO"
      [("role", .vstr role), ("state", .vstr "APPROVED"), ("count", .vint 100)] with
  | .error e => .error e
  | .ok result =>
    if optTruthy (dget result "successful") then
      let data := (dget result "data").getD (.vobj [])
      let orgs : Val :=
        match data with
        | .vobj kvs =>
          match dget kvs "elements" with
          | some v => v
          | none => if data.truthy then .varr [data] else .varr []
        | .varr xs => .varr xs
        | _ => if data.truthy then .varr [data] else .varr []
      match pyLen orgs with
      | .error e => .error e
      | .ok count =>
        .ok [("success", .vbool true),
             ("organizations", orgs),
             ("count", .vint (Int.ofNat count))]
    else
      let error_msg := (dget result "error").getD (.vstr "Failed to get company info")
      if strContains (pyStr error_msg) "403" || strContains (pyStr error_msg) "Forbidden" then
        .ok [("error", .vstr "Permission denied. You may not have admin access to any LinkedIn company pages."),
             ("suggestion", .vstr "Ensure you have ADMINISTRATOR or DIRECT_SPONSORED_CONTENT_POSTER role on a company page.")]
      else
        .ok [("error", error_msg)]

/-- `linkedin_get_company` (lines 216-277 of `linkedin_tools.py`): coerce
an unknown role to "ADMINISTRATOR", gate, invoke. -/
def linkedin_get_company (w : World) (role : String) : Except String Dict :=
  let role :=
    if role ∈ ["ADMINISTRATOR", "DIRECT_SPONSORED_CONTENT_POSTER"] then role
    else "ADMINISTRATOR"
  gateStep (ensure_oauth_connection w LINKEDIN_APP_NAME)
    (linkedin_get_company_body w role)
    (fun e => [("error", .vstr ("LinkedIn company fetch failed: " ++ e))])

/-- The `try` body of `linkedin_search_people` (lines 305-334 of
`linkedin_tools.py`), for the already-clamped `limit`. -/
def linkedin_search_people_body (w : World) (keywords : String) (limit : Int) :
    Except String Dict :=
  match w.executeAction "LINKEDIN_SEARCH_PEOPLE"
      [("keywords", .vstr keywords), ("limit", .vint limit)] with
  | .error e => .error e
  | .ok result =>
    if optTruthy (dget result "successful") then
      match ((dget result "data").getD (.vobj [])).pyGetD "elements" (.varr []) with
      | .error e => .error e
      | .ok people =>
        match pySlice people limit with
        | .error e => .error e
        | .ok sliced =>
          match sliced.mapM personView with
          | .error e => .error e
          | .ok results =>
            match pyLen people with
            | .error e => .error e
            | .ok total =>
              .ok [("success", .vbool true),
                   ("results", .varr results),
                   ("total", .vint (Int.ofNat total))]
    else
      .ok [("error", (dget result "error").getD (.vstr "Failed to search people"))]

/-- `linkedin_search_people` (lines 279-334 of `linkedin_tools.py`):
require keywords, clamp `limit` to [1, 50], gate, invoke. -/
def linkedin_search_people (w : World) (keywords : String) (limit : Int) :
    Except String Dict :=
  if keywords = "" then .ok [("error", .vstr "Keywords are required")]
  else
    gateStep (ensure_oauth_connection w LINKEDIN_APP_NAME)
      (linkedin_search_people_body w keywords (max 1 (min 50 limit)))
      (fun e => [("error", .vstr ("LinkedIn search failed: " ++ e))])

/-- The `try` body of `linkedin_send_message` (lines 363-384 of
`linkedin_tools.py`). -/
def linkedin_send_message_body (w : World) (recipient_id message : String) :
    Except String Dict :=
  match w.executeAction "LINKEDIN_SEND_MESSAGE"
      [("recipient_id", .vstr recipient_id), ("message", .vstr message)] with
  | .error e => .error e
  | .ok result =>
    if optTruthy (dget result "successful") then
      match ((dget result "data").getD (.vobj [])).pyGet "id" with
      | .error e => .error e
      | .ok message_id =>
        .ok [("success", .vbool true),
             ("message_id", optVal message_id),
             ("message", .vstr "Message sent successfully")]
    else
      .ok [("error", (dget result "error").getD (.vstr "Failed to send message"))]

/-- `linkedin_send_message` (lines 336-384 of `linkedin_tools.py`): require
a recipient and a message of length 1-8000, gate, invoke. -/
def linkedin_send_message (w : World) (recipient_id message : String) :
    Except String Dict :=
  if recipient_id = "" then .ok [("error", .vstr "Recipient ID is required")]
  else if message = "" ∨ message.length > 8000 then
    .ok [("error", .vstr "Message must be 1-8000 characters")]
  else
    gateStep (ensure_oauth_connection w LINKEDIN_APP_NAME)
      (linkedin_send_message_body w recipient_id message)
      (fun e => [("error", .vstr ("LinkedIn message failed: " ++ e))])

/-- The "no resolvable credential" situation of the spec: the injected
store (if any) yields nothing and the environment variable is unset. -/
def credMissing (w : World) : Prop :=
  (∀ c, w.credentials = some c → c.get "composio" = .ok none) ∧ w.envApiKey = none

/-- The error message `_get_composio_client` produces when no credential is
resolvable: the missing-key message, or the missing-SDK message when the
SDK import already failed. -/
def missingMsg (w : World) : String :=
  if w.sdkInstalled then
    "COMPOSIO_API_KEY not set. Get one at https://app.composio.dev/settings"
  else "Composio SDK not installed. Run: pip install composio-core"

/-- A world whose injected credential store raises on every lookup. -/
def wRaise : World :=
  { sdkInstalled := true,
    credentials := some { get := fun _ => .error "credential store offline" },
    envApiKey := none,
    mkClient := fun _ => .ok (),
    getEntity := .ok (),
    getConnection := fun _ => .error "no connection",
    initiateConnection := fun _ => .error "down",
    executeAction := fun _ _ => .error "down" }

/-- A world with no injected credential store and no environment key. -/
def wMissing : World :=
  { sdkInstalled := true,
    credentials := none,
    envApiKey := none,
    mkClient := fun _ => .ok (),
    getEntity := .ok (),
    getConnection := fun _ => .error "no connection",
    initiateConnection := fun _ => .error "down",
    executeAction := fun _ _ => .error "down" }

/-- A world with a key but no connection record; initiation yields a
redirect URL. -/
def wNotConnected : World :=
  { sdkInstalled := true,
    credentials := none,
    envApiKey := some "key-123",
    mkClient := fun _ => .ok (),
    getEntity := .ok (),
    getConnection := fun _ => .error "no connection found",
    initiateConnection := fun _ => .ok { redirectUrl := some "https://auth.example/redirect" },
    executeAction := fun _ _ => .error "down" }

/-- A world whose connection-status query raises at `get_entity`. -/
def wCheckFail : World :=
  { sdkInstalled := true,
    credentials := none,
    envApiKey := some "key-123",
    mkClient := fun _ => .ok (),
    getEntity := .error "boom",
    getConnection := fun _ => .error "boom",
    initiateConnection := fun _ => .error "boom",
    executeAction := fun _ _ => .error "boom" }

/-- A world with an ACTIVE connection whose send-email action reports
success with `data.id = "abc123"` and no `threadId`. -/
def wSend : World :=
  { sdkInstalled := true,
    credentials := none,
    envApiKey := some "key-123",
    mkClient := fun _ => .ok (),
    getEntity := .ok (),
    getConnection := fun _ => .ok { truthy := true, status := some "ACTIVE" },
    initiateConnection := fun _ => .error "unused",
    executeAction := fun _ _ =>
      .ok [("successful", .vbool true), ("data", .vobj [("id", .vstr "abc123")])] }

/-- The two-message remote inbox used to probe the truncation behaviour of
`gmail_read_emails`. -/
def twoMessages : List Val :=
  [.vobj [("id", .vstr "m1")], .vobj [("id", .vstr "m2")]]

/-- A world with an ACTIVE connection whose fetch-emails action reports
success with two messages. -/
def wInbox : World :=
  { sdkInstalled := true,
    credentials := none,
    envApiKey := some "key-123",
    mkClient := fun _ => .ok (),
    getEntity := .ok (),
    getConnection := fun _ => .ok { truthy := true, status := some "ACTIVE" },
    initiateConnection := fun _ => .error "unused",
    executeAction := fun _ _ =>
      .ok [("successful", .vbool true), ("data", .vobj [("messages", .varr twoMessages)])] }

/-- The reshaped view of the first inbox message of `wInbox`. -/
def inboxEntry1 : Val :=
  .vobj [("id", .vstr "m1"), ("thread_id", .null), ("from", .null), ("to", .null),
         ("subject", .null), ("snippet", .null), ("date", .null),
         ("is_unread", .vbool false)]

/-- A text of the maximum allowed post length. -/
def bigText : String := String.mk (List.replicate 3000 'a')

/-- A text one character over the maximum allowed post length. -/
def bigText1 : String := String.mk (List.replicate 3001 'a')

lemma ensure_withExec (w : World) (ea : String → Dict → Except String Dict)
    (app : String) :
    ensure_oauth_connection (w.withExec ea) app = ensure_oauth_connection w app := rfl

lemma dashboard_ne_empty (app : String) :
    "https://app.composio.dev/app/" ++ app ≠ "" := by
  intro h
  have h2 := congrArg String.length h
  rw [String.length_append] at h2
  have h3 : ("https://app.composio.dev/app/").length = 29 := rfl
  have h4 : ("" : String).length = 0 := rfl
  omega

lemma initiateOutcome_shape (w : World) (app : String) :
    ∃ s, initiateOutcome w app = (false, some s, none) ∧ s ≠ "" := by
  unfold initiateOutcome
  split
  · exact ⟨_, rfl, dashboard_ne_empty _⟩
  · split
    · split
      · exact ⟨_, rfl, dashboard_ne_empty _⟩
      · next hu => exact ⟨_, rfl, hu⟩
    · exact ⟨_, rfl, dashboard_ne_empty _⟩

lemma check_notConnected_url (w : World) (app : String) (u : Option String)
    (h : check_oauth_connection w app = (false, u, none)) :
    ∃ s, u = some s ∧ s ≠ "" := by
  unfold check_oauth_connection at h
  split at h
  · simp at h
  · split at h
    · simp at h
    · obtain ⟨s, hs, hne⟩ := initiateOutcome_shape w app
      rw [hs] at h
      simp only [Prod.mk.injEq] at h
      exact ⟨s, h.2.1.symm, hne⟩

lemma ensure_notConnected (w : World) (app : String) (u : Option String)
    (hg : get_composio_client w = .ok (some (), none))
    (hc : check_oauth_connection w app = (false, u, none)) :
    ensure_oauth_connection w app = .ok (none, some [
      ("error", .vstr (app ++ " OAuth connection required. Please authorize access.")),
      ("oauth_required", .vbool true),
      ("oauth_url", optVal (u.map Val.vstr)),
      ("message", .vstr ("Please visit the following URL to connect your "
        ++ app ++ " account: " ++ pyOptStr u))]) := by
  unfold ensure_oauth_connection
  rw [hg, hc]
  rfl

lemma ensure_checkFail (w : World) (app : String) (msg : String)
    (hg : get_composio_client w = .ok (some (), none))
    (hc : check_oauth_connection w app = (false, none, some msg)) :
    ensure_oauth_connection w app = .ok (none, some [("error", .vstr msg)]) := by
  unfold ensure_oauth_connection
  rw [hg, hc]

lemma ensure_connected (w : World) (app : String)
    (hg : get_composio_client w = .ok (some (), none))
    (hc : check_oauth_connection w app = (true, none, none)) :
    ensure_oauth_connection w app = .ok (some (), none) := by
  unfold ensure_oauth_connection
  rw [hg, hc]
  rfl

lemma resolveApiKey_credMissing (w : World) (h : credMissing w) :
    resolveApiKey w = .ok none := by
  unfold resolveApiKey
  cases hc : w.credentials with
  | none => rw [h.2]
  | some c => exact h.1 c hc

lemma get_client_credMissing (w : World) (h : credMissing w) :
    get_composio_client w = .ok (none, some (missingMsg w)) := by
  unfold get_composio_client missingMsg
  cases hs : w.sdkInstalled with
  | false => simp
  | true => simp [resolveApiKey_credMissing w h]

lemma ensure_credMissing (w : World) (app : String) (h : credMissing w) :
    ensure_oauth_connection w app = .ok (none, some [("error", .vstr (missingMsg w))]) := by
  unfold ensure_oauth_connection
  rw [get_client_credMissing w h]

lemma credMissing_withRemote (w : World) (h : credMissing w) (mk ge gc ic ea) :
    credMissing (w.withRemote mk ge gc ic ea) := by
  obtain ⟨h1, h2⟩ := h
  exact ⟨fun c hc => h1 c hc, h2⟩

lemma missingMsg_withRemote (w : World) (mk ge gc ic ea) :
    missingMsg (w.withRemote mk ge gc ic ea) = missingMsg w := rfl

lemma ensure_ok_of_no_raise (w : World) (app : String)
    (hcred : ∀ c, w.credentials = some c → ∃ r, c.get "composio" = .ok r)
    (hmk : ∀ s, ∃ r, w.mkClient s = .ok r) :
    ∃ r, ensure_oauth_connection w app = .ok r := by
  have hclient : ∃ r, get_composio_client w = .ok r := by
    unfold get_composio_client
    cases hs : w.sdkInstalled with
    | false => simp
    | true =>
      have hkey : ∃ k, resolveApiKey w = .ok k := by
        unfold resolveApiKey
        cases hc : w.credentials with
        | none => exact ⟨w.envApiKey, rfl⟩
        | some c => exact hcred c hc
      obtain ⟨k, hk⟩ := hkey
      rw [hk]
      cases k with
      | none => simp
      | some sk =>
        by_cases hse : sk = ""
        · simp [hse]
        · obtain ⟨r, hr⟩ := hmk sk
          simp [hse, hr]
  obtain ⟨⟨client, err⟩, hcl⟩ := hclient
  unfold ensure_oauth_connection
  rw [hcl]
  cases err with
  | some e => exact ⟨_, rfl⟩
  | none =>
    rcases hchk : check_oauth_connection w app with ⟨b, u, ce⟩
    cases ce with
    | some m => exact ⟨_, rfl⟩
    | none =>
      cases b with
      | false => exact ⟨_, rfl⟩
      | true => exact ⟨_, rfl⟩

lemma gateStep_gateErr (g : Except String (Option Unit × Option Dict))
    (b : Except String Dict) (wrap : String → Dict) (c : Option Unit) (env : Dict)
    (h : g = .ok (c, some env)) : gateStep g b wrap = .ok env := by
  unfold gateStep
  rw [h]

lemma gateStep_connected (g : Except String (Option Unit × Option Dict))
    (b : Except String Dict) (wrap : String → Dict)
    (h : g = .ok (some (), none)) : gateStep g b wrap = .ok (pyTry b wrap) := by
  unfold gateStep
  rw [h]

lemma gateStep_ok (g : Except String (Option Unit × Option Dict))
    (b : Except String Dict) (wrap : String → Dict)
    (r : Option Unit × Option Dict) (h : g = .ok r) :
    ∃ env, gateStep g b wrap = .ok env := by
  rcases r with ⟨c, e⟩
  unfold gateStep
  rw [h]
  cases e with
  | some env => exact ⟨env, rfl⟩
  | none => exact ⟨_, rfl⟩

lemma mapM_view_ok (view : Val → Except String Val)
    (hview : ∀ kvs, ∃ v, view (.vobj kvs) = .ok v) :
    ∀ (l : List Val), (∀ m ∈ l, ∃ kvs, m = Val.vobj kvs) →
      ∃ es, l.mapM view = .ok es ∧ es.length = l.length := by
  intro l
  induction l with
  | nil => exact fun _ => ⟨[], rfl, rfl⟩
  | cons a t ih =>
    intro h
    obtain ⟨kvs, hk⟩ := h a (List.mem_cons_self a t)
    obtain ⟨v, hv⟩ := hview kvs
    obtain ⟨es, hes, hlen⟩ := ih (fun m hm => h m (List.mem_cons_of_mem a hm))
    refine ⟨v :: es, ?_, by simp [hlen]⟩
    rw [List.mapM_cons, hk, hv, hes]
    rfl

/-- C9: `linkedin_get_profile` returns the same fixed sample profile with
`success: true` for every profile id and every behaviour of the credential
source, the Connection Gate and the remote service, consulting none of
them (its result does not depend on the world at all). -/
theorem c9_get_profile_fixed :
    ∀ (w w' : World) (pid pid' : String),
      linkedin_get_profile w pid = linkedin_get_profile w' pid' ∧
      ∃ env, linkedin_get_profile w pid = .ok env ∧
        dget env "success" = some (.vbool true) :=
  fun _ _ _ _ => ⟨rfl, ⟨_, rfl, rfl⟩⟩

/-- C8: `gmail_read_emails` clamps `max_results` into [1, 100] before any
other step: 500 is treated as 100, 0 as 1, and in general the handler
equals its post-clamp continuation at the clamped value, so no validation
error is ever returned for an out-of-range `max_results`. -/
theorem c8_read_emails_clamp :
    (∀ (w : World) (label : String) (unread : Bool),
       gmail_read_emails w 500 label unread = gmail_read_emails w 100 label unread) ∧
    (∀ (w : World) (label : String) (unread : Bool),
       gmail_read_emails w 0 label unread = gmail_read_emails w 1 label unread) ∧
    (∀ (w : World) (m : Int) (label : String) (unread : Bool),
       gmail_read_emails w m label unread =
         gmail_read_emails_clamped w (max 1 (min 100 m)) label unread) := by
  refine ⟨fun w l u => ?_, fun w l u => ?_, fun w m l u => rfl⟩
  · show gmail_read_emails_clamped w (max 1 (min 100 500)) l u =
      gmail_read_emails_clamped w (max 1 (min 100 100)) l u
    norm_num
  · show gmail_read_emails_clamped w (max 1 (min 100 0)) l u =
      gmail_read_emails_clamped w (max 1 (min 100 1)) l u
    norm_num

/-- C6: `linkedin_create_post` rejects empty text and text of length 3001
with the validation error envelope without consulting the Connection Gate
(the result is the same for every world); text of length exactly 3000
passes validation and proceeds to the gate-consulting continuation. -/
theorem c6_create_post_validation :
    (∀ (w : World) (vis : String),
       linkedin_create_post w "" vis =
         .ok [("error", .vstr "Post text must be 1-3000 characters")]) ∧
    (∀ (w : World) (vis text : String), text.length = 3001 →
       linkedin_create_post w text vis =
         .ok [("error", .vstr "Post text must be 1-3000 characters")]) ∧
    (∀ (w : World) (vis text : String), text.length = 3000 →
       linkedin_create_post w text vis = linkedin_create_post_checked w text vis) := by
  refine ⟨fun w vis => rfl, fun w vis text h => ?_, fun w vis text h => ?_⟩
  · rw [linkedin_create_post, if_pos (Or.inr (by omega))]
  · have hne : ¬(text = "" ∨ text.length > 3000) := by
      rintro (he | hgt)
      · rw [he] at h; simp at h
      · omega
    rw [linkedin_create_post, if_neg hne]

/-- C6 witness: the validation boundary at concrete texts of length 3001
and 3000, in an arbitrary concrete world. -/
theorem c6_witness :
    linkedin_create_post wMissing bigText1 "PUBLIC" =
      .ok [("error", .vstr "Post text must be 1-3000 characters")] ∧
    linkedin_create_post wMissing bigText "PUBLIC" =
      linkedin_create_post_checked wMissing bigText "PUBLIC" :=
  ⟨c6_create_post_validation.2.1 wMissing "PUBLIC" bigText1
     (by simp only [bigText1, String.length_mk, List.length_replicate]),
   c6_create_post_validation.2.2 wMissing "PUBLIC" bigText
     (by simp only [bigText, String.length_mk, List.length_replicate])⟩

/-- C7: with a resolvable credential, a connected gate, and a remote send
action reporting `successful: true` with `data.id = "abc123"` and no
`threadId`, `gmail_send_email` on non-empty `to`, `subject` and `body`
returns exactly the documented success envelope with `thread_id` null. -/
theorem c7_send_email_end_to_end (w : World) (to_ subject body : String)
    (hto : to_ ≠ "") (hsub : subject ≠ "") (hbody : body ≠ "")
    (hclient : get_composio_client w = .ok (some (), none))
    (hcheck : check_oauth_connection w GMAIL_APP_NAME = (true, none, none))
    (hact : ∀ params, w.executeAction "GMAIL_SEND_EMAIL" params =
      .ok [("successful", .vbool true), ("data", .vobj [("id", .vstr "abc123")])]) :
    gmail_send_email w to_ subject body "" "" =
      .ok [("success", .vbool true), ("message_id", .vstr "abc123"),
           ("thread_id", .null), ("message", .vstr "Email sent successfully")] := by
  have hens := ensure_connected w GMAIL_APP_NAME hclient hcheck
  unfold gmail_send_email
  rw [if_neg hto, if_neg hsub, if_neg hbody, gateStep_connected _ _ _ hens]
  unfold gmail_send_email_body
  simp only [hact]
  rfl

/-- C7 witness: the end-to-end scenario at a concrete world and inputs. -/
theorem c7_witness :
    gmail_send_email wSend "a@b.c" "hi" "hello" "" "" =
      .ok [("success", .vbool true), ("message_id", .vstr "abc123"),
           ("thread_id", .null), ("message", .vstr "Email sent successfully")] :=
  c7_send_email_end_to_end wSend "a@b.c" "hi" "hello"
    (by decide) (by decide) (by decide) rfl rfl (fun _ => rfl)

lemma send_email_gate (w : World) (c : Option Unit) (env : Dict)
    (hens : ensure_oauth_connection w GMAIL_APP_NAME = .ok (c, some env))
    (to_ subject body cc bcc : String)
    (hto : to_ ≠ "") (hs : subject ≠ "") (hb : body ≠ "") :
    gmail_send_email w to_ subject body cc bcc = .ok env := by
  unfold gmail_send_email
  rw [if_neg hto, if_neg hs, if_neg hb]
  exact gateStep_gateErr _ _ _ c env hens

lemma read_emails_gate (w : World) (c : Option Unit) (env : Dict)
    (hens : ensure_oauth_connection w GMAIL_APP_NAME = .ok (c, some env))
    (m : Int) (label : String) (unread : Bool) :
    gmail_read_emails w m label unread = .ok env := by
  unfold gmail_read_emails gmail_read_emails_clamped
  exact gateStep_gateErr _ _ _ c env hens

lemma search_emails_gate (w : World) (c : Option Unit) (env : Dict)
    (hens : ensure_oauth_connection w GMAIL_APP_NAME = .ok (c, some env))
    (q : String) (m : Int) (hq : q ≠ "") :
    gmail_search_emails w q m = .ok env := by
  unfold gmail_search_emails gmail_search_emails_clamped
  rw [if_neg hq]
  exact gateStep_gateErr _ _ _ c env hens

lemma create_draft_gate (w : World) (c : Option Unit) (env : Dict)
    (hens : ensure_oauth_connection w GMAIL_APP_NAME = .ok (c, some env))
    (to_ subject body cc bcc : String) (hto : to_ ≠ "") (hs : subject ≠ "") :
    gmail_create_draft w to_ subject body cc bcc = .ok env := by
  unfold gmail_create_draft
  rw [if_neg hto, if_neg hs]
  exact gateStep_gateErr _ _ _ c env hens

lemma create_post_gate (w : World) (c : Option Unit) (env : Dict)
    (hens : ensure_oauth_connection w LINKEDIN_APP_NAME = .ok (c, some env))
    (t v : String) (ht : t ≠ "") (hl : t.length ≤ 3000) :
    linkedin_create_post w t v = .ok env := by
  unfold linkedin_create_post
  rw [if_neg (by push_neg; exact ⟨ht, by omega⟩)]
  unfold linkedin_create_post_checked
  exact gateStep_gateErr _ _ _ c env hens

lemma get_company_gate (w : World) (c : Option Unit) (env : Dict)
    (hens : ensure_oauth_connection w LINKEDIN_APP_NAME = .ok (c, some env))
    (r : String) :
    linkedin_get_company w r = .ok env := by
  unfold linkedin_get_company
  exact gateStep_gateErr _ _ _ c env hens

lemma search_people_gate (w : World) (c : Option Unit) (env : Dict)
    (hens : ensure_oauth_connection w LINKEDIN_APP_NAME = .ok (c, some env))
    (k : String) (lim : Int) (hk : k ≠ "") :
    linkedin_search_people w k lim = .ok env := by
  unfold linkedin_search_people
  rw [if_neg hk]
  exact gateStep_gateErr _ _ _ c env hens

lemma send_message_gate (w : World) (c : Option Unit) (env : Dict)
    (hens : ensure_oauth_connection w LINKEDIN_APP_NAME = .ok (c, some env))
    (rid m : String) (hr : rid ≠ "") (hm : m ≠ "") (hl : m.length ≤ 8000) :
    linkedin_send_message w rid m = .ok env := by
  unfold linkedin_send_message
  rw [if_neg hr, if_neg (by push_neg; exact ⟨hm, by omega⟩)]
  exact gateStep_gateErr _ _ _ c env hens

lemma check_via_connected (w : World) (app : String) (hent : w.getEntity = .ok ()) :
    check_oauth_connection w app =
      (if (match w.getConnection app with
           | .error _ => false
           | .ok connection => connection.truthy &&
               decide (connection.status = some "ACTIVE" ∨ connection.status = none)) then
        (true, none, none)
      else initiateOutcome w app) := by
  unfold check_oauth_connection
  rw [hent]

lemma check_conn_ok (w : World) (app : String) (conn : ConnectionObj)
    (hent : w.getEntity = .ok ()) (hconn : w.getConnection app = .ok conn) :
    check_oauth_connection w app =
      if (conn.truthy && decide (conn.status = some "ACTIVE" ∨ conn.status = none)) then
        (true, none, none)
      else initiateOutcome w app := by
  rw [check_via_connected w app hent, hconn]

/-- C2 counterexample: the claim quantifies over every behaviour of the
credential source, including its `get` raising; but the call
`credentials.get("composio")` inside `_get_composio_client` is not inside
any `try`, so a raise there propagates out of `gmail_send_email` instead
of being returned as an envelope. -/
theorem c2_counterexample :
    gmail_send_email wRaise "a@b.c" "subject" "body" "" "" =
      .error "credential store offline" := rfl

/-- C2 as amended: provided the credential lookup and the client
construction return normally, every tool handler returns an envelope on
every input; every exception of the connection-status query, the OAuth
initiation and the remote action invocation is caught. -/
theorem c2_no_raise_amended (w : World)
    (hcred : ∀ c, w.credentials = some c → ∃ r, c.get "composio" = .ok r)
    (hmk : ∀ s, ∃ r, w.mkClient s = .ok r) :
    (∀ to_ subject body cc bcc, ∃ env, gmail_send_email w to_ subject body cc bcc = .ok env) ∧
    (∀ m label unread, ∃ env, gmail_read_emails w m label unread = .ok env) ∧
    (∀ q m, ∃ env, gmail_search_emails w q m = .ok env) ∧
    (∀ to_ subject body cc bcc, ∃ env, gmail_create_draft w to_ subject body cc bcc = .ok env) ∧
    (∀ t v, ∃ env, linkedin_create_post w t v = .ok env) ∧
    (∀ pid, ∃ env, linkedin_get_profile w pid = .ok env) ∧
    (∀ r, ∃ env, linkedin_get_company w r = .ok env) ∧
    (∀ k lim, ∃ env, linkedin_search_people w k lim = .ok env) ∧
    (∀ rid m, ∃ env, linkedin_send_message w rid m = .ok env) := by
  obtain ⟨rG, hG⟩ := ensure_ok_of_no_raise w GMAIL_APP_NAME hcred hmk
  obtain ⟨rL, hL⟩ := ensure_ok_of_no_raise w LINKEDIN_APP_NAME hcred hmk
  refine ⟨?_, ?_, ?_, ?_, ?_, ?_, ?_, ?_, ?_⟩
  · intro t s b cc bcc
    unfold gmail_send_email
    split
    · exact ⟨_, rfl⟩
    · split
      · exact ⟨_, rfl⟩
      · split
        · exact ⟨_, rfl⟩
        · exact gateStep_ok _ _ _ rG hG
  · intro m label unread
    unfold gmail_read_emails gmail_read_emails_clamped
    exact gateStep_ok _ _ _ rG hG
  · intro q m
    unfold gmail_search_emails
    split
    · exact ⟨_, rfl⟩
    · unfold gmail_search_emails_clamped
      exact gateStep_ok _ _ _ rG hG
  · intro t s b cc bcc
    unfold gmail_create_draft
    split
    · exact ⟨_, rfl⟩
    · split
      · exact ⟨_, rfl⟩
      · exact gateStep_ok _ _ _ rG hG
  · intro t v
    unfold linkedin_create_post
    split
    · exact ⟨_, rfl⟩
    · unfold linkedin_create_post_checked
      exact gateStep_ok _ _ _ rL hL
  · intro pid
    exact ⟨_, rfl⟩
  · intro r
    unfold linkedin_get_company
    exact gateStep_ok _ _ _ rL hL
  · intro k lim
    unfold linkedin_search_people
    split
    · exact ⟨_, rfl⟩
    · exact gateStep_ok _ _ _ rL hL
  · intro rid m
    unfold linkedin_send_message
    split
    · exact ⟨_, rfl⟩
    · split
      · exact ⟨_, rfl⟩
      · exact gateStep_ok _ _ _ rL hL

/-- C2 witness: the amended no-raise property at a concrete world (no
injected store, well-behaved constructor) and concrete inputs. -/
theorem c2_witness :
    ∃ env, gmail_send_email wMissing "a@b.c" "subject" "body" "" "" = .ok env :=
  (c2_no_raise_amended wMissing
      (fun c hc => by simp [wMissing] at hc)
      (fun s => ⟨(), rfl⟩)).1 "a@b.c" "subject" "body" "" ""

/-- C1: when the Connection Gate finds the account not connected (and the
client was resolved), its envelope — which every gate-consulting handler
returns verbatim once its own validation passed — carries
`oauth_required: true`, a non-empty `oauth_url` string and an error
string; when the connection-status query raised, the envelope carries an
error string and no `oauth_required` key at all. -/
theorem c1_oauth_envelopes (w : World) :
    (∀ app u, get_composio_client w = .ok (some (), none) →
       check_oauth_connection w app = (false, u, none) →
       ∃ env, ensure_oauth_connection w app = .ok (none, some env) ∧
         dget env "oauth_required" = some (.vbool true) ∧
         (∃ s, dget env "oauth_url" = some (.vstr s) ∧ s ≠ "") ∧
         (∃ s, dget env "error" = some (.vstr s))) ∧
    (∀ app msg, get_composio_client w = .ok (some (), none) →
       check_oauth_connection w app = (false, none, some msg) →
       ∃ env, ensure_oauth_connection w app = .ok (none, some env) ∧
         (∃ s, dget env "error" = some (.vstr s)) ∧
         dget env "oauth_required" = none) ∧
    (∀ c env, ensure_oauth_connection w GMAIL_APP_NAME = .ok (c, some env) →
       (∀ to_ subject body cc bcc, to_ ≠ "" → subject ≠ "" → body ≠ "" →
          gmail_send_email w to_ subject body cc bcc = .ok env) ∧
       (∀ m label unread, gmail_read_emails w m label unread = .ok env) ∧
       (∀ q m, q ≠ "" → gmail_search_emails w q m = .ok env) ∧
       (∀ to_ subject body cc bcc, to_ ≠ "" → subject ≠ "" →
          gmail_create_draft w to_ subject body cc bcc = .ok env)) ∧
    (∀ c env, ensure_oauth_connection w LINKEDIN_APP_NAME = .ok (c, some env) →
       (∀ t v, t ≠ "" → t.length ≤ 3000 → linkedin_create_post w t v = .ok env) ∧
       (∀ r, linkedin_get_company w r = .ok env) ∧
       (∀ k lim, k ≠ "" → linkedin_search_people w k lim = .ok env) ∧
       (∀ rid m, rid ≠ "" → m ≠ "" → m.length ≤ 8000 →
          linkedin_send_message w rid m = .ok env)) := by
  refine ⟨?_, ?_, ?_, ?_⟩
  · intro app u hg hc
    obtain ⟨s, hu, hs⟩ := check_notConnected_url w app u hc
    subst hu
    exact ⟨_, ensure_notConnected w app (some s) hg hc, rfl, ⟨s, rfl, hs⟩, ⟨_, rfl⟩⟩
  · intro app msg hg hc
    exact ⟨_, ensure_checkFail w app msg hg hc, ⟨msg, rfl⟩, rfl⟩
  · intro c env hens
    exact ⟨fun t s b cc bcc hto hsu hb => send_email_gate w c env hens t s b cc bcc hto hsu hb,
           fun m l u => read_emails_gate w c env hens m l u,
           fun q m hq => search_emails_gate w c env hens q m hq,
           fun t s b cc bcc hto hsu => create_draft_gate w c env hens t s b cc bcc hto hsu⟩
  · intro c env hens
    exact ⟨fun t v ht hl => create_post_gate w c env hens t v ht hl,
           fun r => get_company_gate w c env hens r,
           fun k lim hk => search_people_gate w c env hens k lim hk,
           fun rid m hr hm hl => send_message_gate w c env hens rid m hr hm hl⟩

/-- C1 witness: the not-connected and check-failed envelopes at concrete
worlds, and a handler returning the gate envelope verbatim. -/
theorem c1_witness :
    (∃ env, ensure_oauth_connection wNotConnected GMAIL_APP_NAME = .ok (none, some env) ∧
       dget env "oauth_required" = some (.vbool true) ∧
       (∃ s, dget env "oauth_url" = some (.vstr s) ∧ s ≠ "") ∧
       (∃ s, dget env "error" = some (.vstr s))) ∧
    (∃ env, ensure_oauth_connection wCheckFail GMAIL_APP_NAME = .ok (none, some env) ∧
       (∃ s, dget env "error" = some (.vstr s)) ∧
       dget env "oauth_required" = none) ∧
    gmail_read_emails wMissing 5 "INBOX" false =
      .ok [("error", .vstr "COMPOSIO_API_KEY not set. Get one at https://app.composio.dev/settings")] :=
  ⟨(c1_oauth_envelopes wNotConnected).1 GMAIL_APP_NAME
      (some "https://auth.example/redirect") rfl rfl,
   (c1_oauth_envelopes wCheckFail).2.1 GMAIL_APP_NAME
      "Failed to check OAuth connection: boom" rfl rfl,
   ((c1_oauth_envelopes wMissing).2.2.1 none
      [("error", .vstr "COMPOSIO_API_KEY not set. Get one at https://app.composio.dev/settings")]
      rfl).2.1 5 "INBOX" false⟩

/-- C5: whenever the Connection Gate produces an error envelope (so no
connected client), each handler whose validation passed returns that
envelope unchanged and never reaches the remote action invocation: its
result is the same for every possible behaviour of `execute_action`. -/
theorem c5_no_action_without_connected (w : World) :
    (∀ c env ea, ensure_oauth_connection w GMAIL_APP_NAME = .ok (c, some env) →
       (∀ to_ subject body cc bcc, to_ ≠ "" → subject ≠ "" → body ≠ "" →
          gmail_send_email (w.withExec ea) to_ subject body cc bcc = .ok env) ∧
       (∀ m label unread, gmail_read_emails (w.withExec ea) m label unread = .ok env) ∧
       (∀ q m, q ≠ "" → gmail_search_emails (w.withExec ea) q m = .ok env) ∧
       (∀ to_ subject body cc bcc, to_ ≠ "" → subject ≠ "" →
          gmail_create_draft (w.withExec ea) to_ subject body cc bcc = .ok env)) ∧
    (∀ c env ea, ensure_oauth_connection w LINKEDIN_APP_NAME = .ok (c, some env) →
       (∀ t v, t ≠ "" → t.length ≤ 3000 →
          linkedin_create_post (w.withExec ea) t v = .ok env) ∧
       (∀ r, linkedin_get_company (w.withExec ea) r = .ok env) ∧
       (∀ k lim, k ≠ "" → linkedin_search_people (w.withExec ea) k lim = .ok env) ∧
       (∀ rid m, rid ≠ "" → m ≠ "" → m.length ≤ 8000 →
          linkedin_send_message (w.withExec ea) rid m = .ok env)) := by
  refine ⟨?_, ?_⟩
  · intro c env ea hens
    have hensE : ensure_oauth_connection (w.withExec ea) GMAIL_APP_NAME = .ok (c, some env) :=
      (ensure_withExec w ea GMAIL_APP_NAME).trans hens
    exact ⟨fun t s b cc bcc hto hsu hb =>
             send_email_gate (w.withExec ea) c env hensE t s b cc bcc hto hsu hb,
           fun m l u => read_emails_gate (w.withExec ea) c env hensE m l u,
           fun q m hq => search_emails_gate (w.withExec ea) c env hensE q m hq,
           fun t s b cc bcc hto hsu =>
             create_draft_gate (w.withExec ea) c env hensE t s b cc bcc hto hsu⟩
  · intro c env ea hens
    have hensE : ensure_oauth_connection (w.withExec ea) LINKEDIN_APP_NAME = .ok (c, some env) :=
      (ensure_withExec w ea LINKEDIN_APP_NAME).trans hens
    exact ⟨fun t v ht hl => create_post_gate (w.withExec ea) c env hensE t v ht hl,
           fun r => get_company_gate (w.withExec ea) c env hensE r,
           fun k lim hk => search_people_gate (w.withExec ea) c env hensE k lim hk,
           fun rid m hr hm hl =>
             send_message_gate (w.withExec ea) c env hensE rid m hr hm hl⟩

/-- C5 witness: a failed gate at a concrete world, and the handler's
result is the gate envelope even after the action oracle is replaced. -/
theorem c5_witness :
    gmail_read_emails (wMissing.withExec (fun _ _ => .ok [("successful", .vbool true)]))
        5 "INBOX" false =
      .ok [("error", .vstr "COMPOSIO_API_KEY not set. Get one at https://app.composio.dev/settings")] :=
  ((c5_no_action_without_connected wMissing).1 none
    [("error", .vstr "COMPOSIO_API_KEY not set. Get one at https://app.composio.dev/settings")]
    (fun _ _ => .ok [("successful", .vbool true)]) rfl).2.1 5 "INBOX" false

/-- C4: with the entity resolved, the connection check reports connected
exactly when a connection record was returned, is truthy, and its status
is "ACTIVE" or absent; any other outcome of the record lookup (other
status values, falsy record, or the lookup raising) falls through to the
OAuth-initiation flow. -/
theorem c4_active_iff (w : World) (app : String) (hent : w.getEntity = .ok ()) :
    (∀ conn, w.getConnection app = .ok conn →
       ((check_oauth_connection w app = (true, none, none) ↔
          conn.truthy = true ∧ (conn.status = some "ACTIVE" ∨ conn.status = none)) ∧
        (¬(conn.truthy = true ∧ (conn.status = some "ACTIVE" ∨ conn.status = none)) →
          check_oauth_connection w app = initiateOutcome w app))) ∧
    (∀ e, w.getConnection app = .error e →
       check_oauth_connection w app = initiateOutcome w app) := by
  constructor
  · intro conn hconn
    have hch := check_conn_ok w app conn hent hconn
    have hbool : (conn.truthy &&
        decide (conn.status = some "ACTIVE" ∨ conn.status = none)) = true ↔
        (conn.truthy = true ∧ (conn.status = some "ACTIVE" ∨ conn.status = none)) := by
      simp [Bool.and_eq_true, decide_eq_true_iff]
    constructor
    · constructor
      · intro hq
        by_cases hcond : (conn.truthy &&
            decide (conn.status = some "ACTIVE" ∨ conn.status = none)) = true
        · exact hbool.mp hcond
        · rw [hch, if_neg hcond] at hq
          obtain ⟨s, hs, _⟩ := initiateOutcome_shape w app
          rw [hs] at hq
          simp at hq
      · intro hq
        rw [hch, if_pos (hbool.mpr hq)]
    · intro hn
      rw [hch, if_neg (fun hcond => hn (hbool.mp hcond))]
  · intro e he
    rw [check_via_connected w app hent, he]
    rfl

/-- C4 witness: an ACTIVE truthy record is connected; an "INITIATED"
record falls through to initiation. -/
theorem c4_witness :
    check_oauth_connection wSend GMAIL_APP_NAME = (true, none, none) ∧
    check_oauth_connection wNotConnected GMAIL_APP_NAME =
      initiateOutcome wNotConnected GMAIL_APP_NAME :=
  ⟨((c4_active_iff wSend GMAIL_APP_NAME rfl).1 { truthy := true, status := some "ACTIVE" }
      rfl).1.mpr ⟨rfl, Or.inl rfl⟩,
   (c4_active_iff wNotConnected GMAIL_APP_NAME rfl).2 "no connection found" rfl⟩

lemma ensure_credMissing_withRemote (w : World) (h : credMissing w) (app : String)
    (mk ge gc ic ea) :
    ensure_oauth_connection (w.withRemote mk ge gc ic ea) app =
      .ok (none, some [("error", .vstr (missingMsg w))]) := by
  rw [ensure_credMissing _ app (credMissing_withRemote w h mk ge gc ic ea),
      missingMsg_withRemote]

/-- C3: with no resolvable credential, every tool except
`linkedin_get_profile` returns an envelope with an error string and no
`oauth_required` key, and its result is unchanged under any replacement of
the client constructor, entity lookup, connection lookup, OAuth initiation
and action invocation — i.e. it performs no remote interaction. -/
theorem c3_missing_credential (w : World) (hmiss : credMissing w) :
    (∀ to_ subject body cc bcc,
       (∃ env, gmail_send_email w to_ subject body cc bcc = .ok env ∧
          (∃ m, dget env "error" = some (.vstr m)) ∧ dget env "oauth_required" = none) ∧
       (∀ mk ge gc ic ea, gmail_send_email (w.withRemote mk ge gc ic ea) to_ subject body cc bcc =
          gmail_send_email w to_ subject body cc bcc)) ∧
    (∀ m label unread,
       (∃ env, gmail_read_emails w m label unread = .ok env ∧
          (∃ s, dget env "error" = some (.vstr s)) ∧ dget env "oauth_required" = none) ∧
       (∀ mk ge gc ic ea, gmail_read_emails (w.withRemote mk ge gc ic ea) m label unread =
          gmail_read_emails w m label unread)) ∧
    (∀ q m,
       (∃ env, gmail_search_emails w q m = .ok env ∧
          (∃ s, dget env "error" = some (.vstr s)) ∧ dget env "oauth_required" = none) ∧
       (∀ mk ge gc ic ea, gmail_search_emails (w.withRemote mk ge gc ic ea) q m =
          gmail_search_emails w q m)) ∧
    (∀ to_ subject body cc bcc,
       (∃ env, gmail_create_draft w to_ subject body cc bcc = .ok env ∧
          (∃ m, dget env "error" = some (.vstr m)) ∧ dget env "oauth_required" = none) ∧
       (∀ mk ge gc ic ea, gmail_create_draft (w.withRemote mk ge gc ic ea) to_ subject body cc bcc =
          gmail_create_draft w to_ subject body cc bcc)) ∧
    (∀ t v,
       (∃ env, linkedin_create_post w t v = .ok env ∧
          (∃ s, dget env "error" = some (.vstr s)) ∧ dget env "oauth_required" = none) ∧
       (∀ mk ge gc ic ea, linkedin_create_post (w.withRemote mk ge gc ic ea) t v =
          linkedin_create_post w t v)) ∧
    (∀ r,
       (∃ env, linkedin_get_company w r = .ok env ∧
          (∃ s, dget env "error" = some (.vstr s)) ∧ dget env "oauth_required" = none) ∧
       (∀ mk ge gc ic ea, linkedin_get_company (w.withRemote mk ge gc ic ea) r =
          linkedin_get_company w r)) ∧
    (∀ k lim,
       (∃ env, linkedin_search_people w k lim = .ok env ∧
          (∃ s, dget env "error" = some (.vstr s)) ∧ dget env "oauth_required" = none) ∧
       (∀ mk ge gc ic ea, linkedin_search_people (w.withRemote mk ge gc ic ea) k lim =
          linkedin_search_people w k lim)) ∧
    (∀ rid m,
       (∃ env, linkedin_send_message w rid m = .ok env ∧
          (∃ s, dget env "error" = some (.vstr s)) ∧ dget env "oauth_required" = none) ∧
       (∀ mk ge gc ic ea, linkedin_send_message (w.withRemote mk ge gc ic ea) rid m =
          linkedin_send_message w rid m)) := by
  have hensG := ensure_credMissing w GMAIL_APP_NAME hmiss
  have hensL := ensure_credMissing w LINKEDIN_APP_NAME hmiss
  refine ⟨?_, ?_, ?_, ?_, ?_, ?_, ?_, ?_⟩
  · intro t s b cc bcc
    constructor
    · unfold gmail_send_email
      split_ifs with h1 h2 h3
      · exact ⟨_, rfl, ⟨_, rfl⟩, rfl⟩
      · exact ⟨_, rfl, ⟨_, rfl⟩, rfl⟩
      · exact ⟨_, rfl, ⟨_, rfl⟩, rfl⟩
      · exact ⟨_, gateStep_gateErr _ _ _ _ _ hensG, ⟨_, rfl⟩, rfl⟩
    · intro mk ge gc ic ea
      have hensG' := ensure_credMissing_withRemote w hmiss GMAIL_APP_NAME mk ge gc ic ea
      unfold gmail_send_email
      split_ifs
      · rfl
      · rfl
      · rfl
      · rw [gateStep_gateErr _ _ _ _ _ hensG', gateStep_gateErr _ _ _ _ _ hensG]
  · intro m label unread
    constructor
    · exact ⟨_, read_emails_gate w none _ hensG m label unread, ⟨_, rfl⟩, rfl⟩
    · intro mk ge gc ic ea
      have hensG' := ensure_credMissing_withRemote w hmiss GMAIL_APP_NAME mk ge gc ic ea
      rw [read_emails_gate (w.withRemote mk ge gc ic ea) none _ hensG' m label unread,
          read_emails_gate w none _ hensG m label unread]
  · intro q m
    constructor
    · unfold gmail_search_emails
      split_ifs with h1
      · exact ⟨_, rfl, ⟨_, rfl⟩, rfl⟩
      · exact ⟨_, gateStep_gateErr _ _ _ _ _ hensG, ⟨_, rfl⟩, rfl⟩
    · intro mk ge gc ic ea
      have hensG' := ensure_credMissing_withRemote w hmiss GMAIL_APP_NAME mk ge gc ic ea
      unfold gmail_search_emails gmail_search_emails_clamped
      split_ifs
      · rfl
      · rw [gateStep_gateErr _ _ _ _ _ hensG', gateStep_gateErr _ _ _ _ _ hensG]
  · intro t s b cc bcc
    constructor
    · unfold gmail_create_draft
      split_ifs with h1 h2
      · exact ⟨_, rfl, ⟨_, rfl⟩, rfl⟩
      · exact ⟨_, rfl, ⟨_, rfl⟩, rfl⟩
      · exact ⟨_, gateStep_gateErr _ _ _ _ _ hensG, ⟨_, rfl⟩, rfl⟩
    · intro mk ge gc ic ea
      have hensG' := ensure_credMissing_withRemote w hmiss GMAIL_APP_NAME mk ge gc ic ea
      unfold gmail_create_draft
      split_ifs
      · rfl
      · rfl
      · rw [gateStep_gateErr _ _ _ _ _ hensG', gateStep_gateErr _ _ _ _ _ hensG]
  · intro t v
    constructor
    · unfold linkedin_create_post linkedin_create_post_checked
      split_ifs
      · exact ⟨_, rfl, ⟨_, rfl⟩, rfl⟩
      all_goals exact ⟨_, gateStep_gateErr _ _ _ _ _ hensL, ⟨_, rfl⟩, rfl⟩
    · intro mk ge gc ic ea
      have hensL' := ensure_credMissing_withRemote w hmiss LINKEDIN_APP_NAME mk ge gc ic ea
      unfold linkedin_create_post linkedin_create_post_checked
      split_ifs
      · rfl
      all_goals simp only [gateStep_gateErr _ _ _ _ _ hensL',
        gateStep_gateErr _ _ _ _ _ hensL]
  · intro r
    constructor
    · exact ⟨_, get_company_gate w none _ hensL r, ⟨_, rfl⟩, rfl⟩
    · intro mk ge gc ic ea
      have hensL' := ensure_credMissing_withRemote w hmiss LINKEDIN_APP_NAME mk ge gc ic ea
      rw [get_company_gate (w.withRemote mk ge gc ic ea) none _ hensL' r,
          get_company_gate w none _ hensL r]
  · intro k lim
    constructor
    · unfold linkedin_search_people
      split_ifs with h1
      · exact ⟨_, rfl, ⟨_, rfl⟩, rfl⟩
      · exact ⟨_, gateStep_gateErr _ _ _ _ _ hensL, ⟨_, rfl⟩, rfl⟩
    · intro mk ge gc ic ea
      have hensL' := ensure_credMissing_withRemote w hmiss LINKEDIN_APP_NAME mk ge gc ic ea
      unfold linkedin_search_people
      split_ifs
      · rfl
      · rw [gateStep_gateErr _ _ _ _ _ hensL', gateStep_gateErr _ _ _ _ _ hensL]
  · intro rid m
    constructor
    · unfold linkedin_send_message
      split_ifs with h1 h2
      · exact ⟨_, rfl, ⟨_, rfl⟩, rfl⟩
      · exact ⟨_, rfl, ⟨_, rfl⟩, rfl⟩
      · exact ⟨_, gateStep_gateErr _ _ _ _ _ hensL, ⟨_, rfl⟩, rfl⟩
    · intro mk ge gc ic ea
      have hensL' := ensure_credMissing_withRemote w hmiss LINKEDIN_APP_NAME mk ge gc ic ea
      unfold linkedin_send_message
      split_ifs
      · rfl
      · rfl
      · rw [gateStep_gateErr _ _ _ _ _ hensL', gateStep_gateErr _ _ _ _ _ hensL]

/-- C3 witness: the missing-credential behaviour at a concrete world and
concrete inputs. -/
theorem c3_witness :
    ∃ env, gmail_send_email wMissing "a@b.c" "subject" "body" "" "" = .ok env ∧
      (∃ m, dget env "error" = some (.vstr m)) ∧ dget env "oauth_required" = none :=
  ((c3_missing_credential wMissing
      ⟨fun c hc => by simp [wMissing] at hc, rfl⟩).1
    "a@b.c" "subject" "body" "" "").1

/-- C10 counterexample: the claim bounds the returned entries by the raw
`max_results` argument, but `max_results = 0` is clamped up to 1, so a
successful call with two remote messages returns one entry — more than
`max_results`. -/
theorem c10_counterexample :
    gmail_read_emails wInbox 0 "INBOX" false =
      .ok [("success", .vbool true), ("emails", .varr [inboxEntry1]),
           ("total", .vint 2)] ∧
    ¬ ([inboxEntry1].length ≤ 0) :=
  ⟨rfl, by decide⟩

/-- C10 as amended: on a successful fetch the returned list is the remote
message list truncated to the clamped `max(1, min(100, max_results))`
bound, while `total` is the length of the full untruncated remote list —
so `total` may exceed the number of entries returned. -/
theorem c10_truncation_amended (w : World) (msgs : List Val)
    (hclient : get_composio_client w = .ok (some (), none))
    (hcheck : check_oauth_connection w GMAIL_APP_NAME = (true, none, none))
    (hact : ∀ params, w.executeAction "GMAIL_FETCH_EMAILS" params =
      .ok [("successful", .vbool true), ("data", .vobj [("messages", .varr msgs)])])
    (hobj : ∀ m ∈ msgs, ∃ kvs, m = Val.vobj kvs) :
    (∀ mr label unread, ∃ es,
       gmail_read_emails w mr label unread =
         .ok [("success", .vbool true), ("emails", .varr es),
              ("total", .vint (Int.ofNat msgs.length))] ∧
       es.length ≤ (max 1 (min 100 mr)).toNat) ∧
    (∀ q mr, q ≠ "" → ∃ rs,
       gmail_search_emails w q mr =
         .ok [("success", .vbool true), ("results", .varr rs),
              ("total", .vint (Int.ofNat msgs.length)), ("query", .vstr q)] ∧
       rs.length ≤ (max 1 (min 100 mr)).toNat) := by
  have hens := ensure_connected w GMAIL_APP_NAME hclient hcheck
  constructor
  · intro mr label unread
    obtain ⟨es, hes, hlen⟩ := mapM_view_ok emailView (fun kvs => ⟨_, rfl⟩)
      (msgs.take (max 1 (min 100 mr)).toNat)
      (fun m hm => hobj m (List.mem_of_mem_take hm))
    refine ⟨es, ?_, ?_⟩
    · unfold gmail_read_emails gmail_read_emails_clamped
      rw [gateStep_connected _ _ _ hens]
      unfold gmail_read_emails_body
      simp only [hact]
      simp [dget, optTruthy, Val.truthy, Val.pyGetD, pySlice, pyLen, pyTry,
        show List.mapM.loop emailView (List.take (max 1 (min 100 mr)).toNat msgs) []
          = Except.ok es from hes]
    · rw [hlen]
      exact List.length_take_le _ _
  · intro q mr hq
    obtain ⟨rs, hrs, hlen⟩ := mapM_view_ok searchView (fun kvs => ⟨_, rfl⟩)
      (msgs.take (max 1 (min 100 mr)).toNat)
      (fun m hm => hobj m (List.mem_of_mem_take hm))
    refine ⟨rs, ?_, ?_⟩
    · unfold gmail_search_emails gmail_search_emails_clamped
      rw [if_neg hq, gateStep_connected _ _ _ hens]
      unfold gmail_search_emails_body
      simp only [hact]
      simp [dget, optTruthy, Val.truthy, Val.pyGetD, pySlice, pyLen, pyTry,
        show List.mapM.loop searchView (List.take (max 1 (min 100 mr)).toNat msgs) []
          = Except.ok rs from hrs]
    · rw [hlen]
      exact List.length_take_le _ _

/-- C10 witness: the amended truncation property at a concrete world with
two remote messages. -/
theorem c10_witness :
    ∃ es, gmail_read_emails wInbox 10 "INBOX" false =
        .ok [("success", .vbool true), ("emails", .varr es),
             ("total", .vint (Int.ofNat twoMessages.length))] ∧
      es.length ≤ (max 1 (min 100 (10 : Int))).toNat :=
  (c10_truncation_amended wInbox twoMessages rfl rfl (fun _ => rfl)
    (by
      intro m hm
      simp [twoMessages] at hm
      rcases hm with h | h <;> exact ⟨_, h⟩)).1 10 "INBOX" false

end Hive
